import Mathlib

/-!
Verification of the catalog schema migration step `v80_to_v81`
(`src/catalog/src/durable/upgrade/v80_to_v81.rs`) of the materialize
repository: the step that adds the `sealed` field to `ClusterConfig`.

The per-version object declarations (`objects_v80` / `objects_v81`) are not
part of the given sources; they are modelled here from the specification's
data model (section 3) and from the exact field and constructor names used
by the migration code itself.
-/

namespace V80

/-- Modelled from the spec: the v80 duration payload with seconds and
nanoseconds, as read field-by-field by the migration code. -/
structure Duration where
  secs : Nat
  nanos : Nat
  deriving DecidableEq, Repr

/-- Modelled from the spec: v80 replica logging configuration, a boolean
flag and an optional interval. -/
structure ReplicaLogging where
  log_logging : Bool
  interval : Option Duration
  deriving DecidableEq, Repr

/-- Modelled from the spec: a v80 optimizer feature override, a name-value
pair of strings. -/
structure OptimizerFeatureOverride where
  name : String
  value : String
  deriving DecidableEq, Repr

/-- Modelled from the spec: v80 refresh-schedule options carrying a
rehydration time estimate. -/
structure ClusterScheduleRefreshOptions where
  rehydration_time_estimate : Duration
  deriving DecidableEq, Repr

/-- Modelled from the spec: the v80 cluster schedule, either manual or a
refresh schedule. -/
inductive ClusterSchedule where
  | Manual
  | Refresh (r : ClusterScheduleRefreshOptions)
  deriving DecidableEq, Repr

/-- Modelled from the spec: the v80 managed-cluster payload, with the
fields the migration code copies over one by one. -/
structure ManagedCluster where
  size : String
  replication_factor : Nat
  availability_zones : List String
  logging : ReplicaLogging
  optimizer_feature_overrides : List OptimizerFeatureOverride
  schedule : ClusterSchedule
  deriving DecidableEq, Repr

/-- Modelled from the spec: the v80 cluster variant, unmanaged or managed. -/
inductive ClusterVariant where
  | Unmanaged
  | Managed (m : ManagedCluster)
  deriving DecidableEq, Repr

/-- Modelled from the spec: the v80 cluster identifier, system or user. -/
inductive ClusterId where
  | System (id : Nat)
  | User (id : Nat)
  deriving DecidableEq, Repr

/-- Modelled from the spec: the v80 role identifier with its four cases,
exactly the cases matched by `upgrade_role_id`. -/
inductive RoleId where
  | System (id : Nat)
  | User (id : Nat)
  | Public
  | Predefined (id : Nat)
  deriving DecidableEq, Repr

/-- Modelled from the spec: the v80 acl mode, a bag of permission bitflags. -/
structure AclMode where
  bitflags : Nat
  deriving DecidableEq, Repr

/-- Modelled from the spec: a v80 privilege item with grantee, grantor and
acl mode. -/
structure MzAclItem where
  grantee : RoleId
  grantor : RoleId
  acl_mode : AclMode
  deriving DecidableEq, Repr

/-- Modelled from the spec: the v80 cluster configuration; it has no
`sealed` field, which v81 introduces. -/
structure ClusterConfig where
  workload_class : Option String
  variant : ClusterVariant
  deriving DecidableEq, Repr

/-- Modelled from the spec: the v80 cluster key wrapping the cluster id. -/
structure ClusterKey where
  id : ClusterId
  deriving DecidableEq, Repr

/-- Modelled from the spec: the v80 cluster value with name, owner,
privileges and configuration. -/
structure ClusterValue where
  name : String
  owner_id : RoleId
  privileges : List MzAclItem
  config : ClusterConfig
  deriving DecidableEq, Repr

/-- Modelled from the spec: a v80 cluster entry, a key-value pair. -/
structure Cluster where
  key : ClusterKey
  value : ClusterValue
  deriving DecidableEq, Repr

/-- Modelled from the spec: the closed tagged variant over all v80 catalog
object kinds. The migration step matches only the `Cluster` case and sends
every other case through a wildcard arm, so all non-cluster kinds are
modelled by one opaque case carrying a tag that distinguishes entries. -/
inductive StateUpdateKind where
  | Cluster (c : Cluster)
  | Other (tag : Nat)
  deriving DecidableEq, Repr

end V80

namespace V81

/-- Modelled from the spec: the v81 duration payload. -/
structure Duration where
  secs : Nat
  nanos : Nat
  deriving DecidableEq, Repr

/-- Modelled from the spec: v81 replica logging configuration. -/
structure ReplicaLogging where
  log_logging : Bool
  interval : Option Duration
  deriving DecidableEq, Repr

/-- Modelled from the spec: a v81 optimizer feature override. -/
structure OptimizerFeatureOverride where
  name : String
  value : String
  deriving DecidableEq, Repr

/-- Modelled from the spec: v81 refresh-schedule options. -/
structure ClusterScheduleRefreshOptions where
  rehydration_time_estimate : Duration
  deriving DecidableEq, Repr

/-- Modelled from the spec: the v81 cluster schedule. -/
inductive ClusterSchedule where
  | Manual
  | Refresh (r : ClusterScheduleRefreshOptions)
  deriving DecidableEq, Repr

/-- Modelled from the spec: the v81 managed-cluster payload. -/
structure ManagedCluster where
  size : String
  replication_factor : Nat
  availability_zones : List String
  logging : ReplicaLogging
  optimizer_feature_overrides : List OptimizerFeatureOverride
  schedule : ClusterSchedule
  deriving DecidableEq, Repr

/-- Modelled from the spec: the v81 cluster variant. -/
inductive ClusterVariant where
  | Unmanaged
  | Managed (m : ManagedCluster)
  deriving DecidableEq, Repr

/-- Modelled from the spec: the v81 cluster identifier. -/
inductive ClusterId where
  | System (id : Nat)
  | User (id : Nat)
  deriving DecidableEq, Repr

/-- Modelled from the spec: the v81 role identifier. -/
inductive RoleId where
  | System (id : Nat)
  | User (id : Nat)
  | Public
  | Predefined (id : Nat)
  deriving DecidableEq, Repr

/-- Modelled from the spec: the v81 acl mode. -/
structure AclMode where
  bitflags : Nat
  deriving DecidableEq, Repr

/-- Modelled from the spec: a v81 privilege item. -/
structure MzAclItem where
  grantee : RoleId
  grantor : RoleId
  acl_mode : AclMode
  deriving DecidableEq, Repr

/-- Modelled from the spec: the v81 cluster configuration; compared with
v80 it gains the new boolean field `sealed`, whose documented default is
`false`. -/
structure ClusterConfig where
  workload_class : Option String
  variant : ClusterVariant
  sealed : Bool
  deriving DecidableEq, Repr

/-- Modelled from the spec: the v81 cluster key. -/
structure ClusterKey where
  id : ClusterId
  deriving DecidableEq, Repr

/-- Modelled from the spec: the v81 cluster value. -/
structure ClusterValue where
  name : String
  owner_id : RoleId
  privileges : List MzAclItem
  config : ClusterConfig
  deriving DecidableEq, Repr

/-- Modelled from the spec: a v81 cluster entry. -/
structure Cluster where
  key : ClusterKey
  value : ClusterValue
  deriving DecidableEq, Repr

/-- Modelled from the spec: the closed tagged variant over all v81 catalog
object kinds, mirroring the v80 variant; the non-cluster kinds are
JSON-compatible between v80 and v81. -/
inductive StateUpdateKind where
  | Cluster (c : Cluster)
  | Other (tag : Nat)
  deriving DecidableEq, Repr

end V81

/-- A migration action, the unit of output of an upgrade step: insert a new
entry, update an old entry to a new one, or delete an old entry
(`MigrationAction<Old, New>` of the framework). -/
inductive MigrationAction (Old New : Type) where
  | Insert (new : New)
  | Update (old : Old) (new : New)
  | Delete (old : Old)
  deriving DecidableEq, Repr

/-- The `old` entry an action refers to, if any: `Update` and `Delete`
carry one, `Insert` does not. -/
def MigrationAction.oldOf : MigrationAction Old New → Option Old
  | .Insert _ => none
  | .Update old _ => some old
  | .Delete old => some old

/-- Translation of `upgrade_cluster_id` from `v80_to_v81.rs`: maps each
v80 cluster-id case to the same v81 case with the same payload. -/
def upgrade_cluster_id : V80.ClusterId → V81.ClusterId
  | V80.ClusterId.System id => V81.ClusterId.System id
  | V80.ClusterId.User id => V81.ClusterId.User id

/-- Translation of `upgrade_role_id` from `v80_to_v81.rs`: maps each v80
role-id case to the same v81 case with the same payload. -/
def upgrade_role_id : V80.RoleId → V81.RoleId
  | V80.RoleId.System id => V81.RoleId.System id
  | V80.RoleId.User id => V81.RoleId.User id
  | V80.RoleId.Public => V81.RoleId.Public
  | V80.RoleId.Predefined id => V81.RoleId.Predefined id

/-- Translation of `upgrade_mz_acl_item` from `v80_to_v81.rs`: grantee and
grantor go through `upgrade_role_id`, the acl-mode bitflags are copied. -/
def upgrade_mz_acl_item (item : V80.MzAclItem) : V81.MzAclItem :=
  { grantee := upgrade_role_id item.grantee
    grantor := upgrade_role_id item.grantor
    acl_mode := { bitflags := item.acl_mode.bitflags } }

/-- Translation of `upgrade_cluster_variant` from `v80_to_v81.rs`: carries
each field of a managed cluster over, rebuilding the nested duration,
logging, override and schedule values in the v81 types. -/
def upgrade_cluster_variant : V80.ClusterVariant → V81.ClusterVariant
  | V80.ClusterVariant.Unmanaged => V81.ClusterVariant.Unmanaged
  | V80.ClusterVariant.Managed m =>
      V81.ClusterVariant.Managed
        { size := m.size
          replication_factor := m.replication_factor
          availability_zones := m.availability_zones
          logging :=
            { log_logging := m.logging.log_logging
              interval := m.logging.interval.map fun d =>
                { secs := d.secs, nanos := d.nanos } }
          optimizer_feature_overrides :=
            m.optimizer_feature_overrides.map fun o =>
              { name := o.name, value := o.value }
          schedule :=
            match m.schedule with
            | V80.ClusterSchedule.Manual => V81.ClusterSchedule.Manual
            | V80.ClusterSchedule.Refresh r =>
                V81.ClusterSchedule.Refresh
                  { rehydration_time_estimate :=
                      { secs := r.rehydration_time_estimate.secs
                        nanos := r.rehydration_time_estimate.nanos } } }

/-- The v81 cluster built by the `Cluster` arm of `upgrade` in
`v80_to_v81.rs`: the key id, owner id, privileges and variant are
translated by the helper functions, the name and workload class are
copied, and the new `sealed` field is set to its default `false`. -/
def upgrade_cluster (cluster : V80.Cluster) : V81.Cluster :=
  { key := { id := upgrade_cluster_id cluster.key.id }
    value :=
      { name := cluster.value.name
        owner_id := upgrade_role_id cluster.value.owner_id
        privileges := cluster.value.privileges.map upgrade_mz_acl_item
        config :=
          { workload_class := cluster.value.config.workload_class
            variant := upgrade_cluster_variant cluster.value.config.variant
            sealed := false } } }

/-- The body of the `filter_map` closure of `upgrade` in `v80_to_v81.rs`:
a cluster entry yields `Some(Update(old, new))` with the translated
cluster, every other kind yields `None`. -/
def upgrade_entry (old : V80.StateUpdateKind) :
    Option (MigrationAction V80.StateUpdateKind V81.StateUpdateKind) :=
  match old with
  | V80.StateUpdateKind.Cluster cluster =>
      some (MigrationAction.Update (V80.StateUpdateKind.Cluster cluster)
        (V81.StateUpdateKind.Cluster (upgrade_cluster cluster)))
  | _ => none

/-- Translation of `upgrade` from `v80_to_v81.rs`: the snapshot is sent
through `filter_map` with the per-entry closure and collected. -/
def upgrade (snapshot : List V80.StateUpdateKind) :
    List (MigrationAction V80.StateUpdateKind V81.StateUpdateKind) :=
  snapshot.filterMap upgrade_entry

/-!
Structural sameness of values across the two versions. The spec speaks of
fields being "structurally identical" and "byte-for-byte identical" before
and after migration; since the v80 and v81 object models are distinct
types, that comparison is formalised by the relations below, which hold
exactly when the two sides have the same constructor and equal payloads,
field by field.
-/

/-- A v80 duration and a v81 duration have equal seconds and nanoseconds. -/
def DurationSame (d : V80.Duration) (e : V81.Duration) : Prop :=
  e.secs = d.secs ∧ e.nanos = d.nanos

/-- A v80 cluster id and a v81 cluster id have the same case and payload. -/
def ClusterIdSame : V80.ClusterId → V81.ClusterId → Prop
  | V80.ClusterId.System a, V81.ClusterId.System b => b = a
  | V80.ClusterId.User a, V81.ClusterId.User b => b = a
  | _, _ => False

/-- A v80 role id and a v81 role id have the same case and payload. -/
def RoleIdSame : V80.RoleId → V81.RoleId → Prop
  | V80.RoleId.System a, V81.RoleId.System b => b = a
  | V80.RoleId.User a, V81.RoleId.User b => b = a
  | V80.RoleId.Public, V81.RoleId.Public => True
  | V80.RoleId.Predefined a, V81.RoleId.Predefined b => b = a
  | _, _ => False

/-- A v80 privilege item and a v81 privilege item agree on grantee,
grantor and acl-mode bitflags. -/
def AclItemSame (i : V80.MzAclItem) (j : V81.MzAclItem) : Prop :=
  RoleIdSame i.grantee j.grantee ∧ RoleIdSame i.grantor j.grantor ∧
    j.acl_mode.bitflags = i.acl_mode.bitflags

/-- An optional v80 duration and an optional v81 duration are both absent
or both present with the same payload. -/
def IntervalSame : Option V80.Duration → Option V81.Duration → Prop
  | none, none => True
  | some d, some e => DurationSame d e
  | _, _ => False

/-- A v80 replica logging value and a v81 one agree on the flag and the
optional interval. -/
def LoggingSame (l : V80.ReplicaLogging) (m : V81.ReplicaLogging) : Prop :=
  m.log_logging = l.log_logging ∧ IntervalSame l.interval m.interval

/-- A v80 optimizer feature override and a v81 one agree on name and
value. -/
def OverrideSame (o : V80.OptimizerFeatureOverride)
    (p : V81.OptimizerFeatureOverride) : Prop :=
  p.name = o.name ∧ p.value = o.value

/-- A v80 cluster schedule and a v81 one have the same case, and in the
refresh case the same rehydration time estimate. -/
def ScheduleSame : V80.ClusterSchedule → V81.ClusterSchedule → Prop
  | V80.ClusterSchedule.Manual, V81.ClusterSchedule.Manual => True
  | V80.ClusterSchedule.Refresh r, V81.ClusterSchedule.Refresh t =>
      DurationSame r.rehydration_time_estimate t.rehydration_time_estimate
  | _, _ => False

/-- A v80 managed cluster and a v81 one agree field by field. -/
def ManagedSame (m : V80.ManagedCluster) (n : V81.ManagedCluster) : Prop :=
  n.size = m.size ∧ n.replication_factor = m.replication_factor ∧
    n.availability_zones = m.availability_zones ∧
    LoggingSame m.logging n.logging ∧
    List.Forall₂ OverrideSame m.optimizer_feature_overrides
      n.optimizer_feature_overrides ∧
    ScheduleSame m.schedule n.schedule

/-- A v80 cluster variant and a v81 one have the same case, and in the
managed case structurally equal payloads. -/
def VariantSame : V80.ClusterVariant → V81.ClusterVariant → Prop
  | V80.ClusterVariant.Unmanaged, V81.ClusterVariant.Unmanaged => True
  | V80.ClusterVariant.Managed m, V81.ClusterVariant.Managed n =>
      ManagedSame m n
  | _, _ => False

/-- A v80 cluster entry and a v81 cluster entry agree on every field the
two shapes share: key id, name, owner, privileges, workload class and
variant. -/
def ClusterSame (c : V80.Cluster) (d : V81.Cluster) : Prop :=
  ClusterIdSame c.key.id d.key.id ∧ d.value.name = c.value.name ∧
    RoleIdSame c.value.owner_id d.value.owner_id ∧
    List.Forall₂ AclItemSame c.value.privileges d.value.privileges ∧
    d.value.config.workload_class = c.value.config.workload_class ∧
    VariantSame c.value.config.variant d.value.config.variant

/-- Whether a v80 entry is a cluster entry. -/
def isClusterEntry : V80.StateUpdateKind → Bool
  | V80.StateUpdateKind.Cluster _ => true
  | _ => false

/-- The key of a v80 entry, for entries whose kind the migration step
touches; non-cluster entries carry no cluster key. -/
def entryKey : V80.StateUpdateKind → Option V80.ClusterKey
  | V80.StateUpdateKind.Cluster c => some c.key
  | _ => none

/-- The role-id translation preserves case and payload. -/
lemma roleIdSame_upgrade (r : V80.RoleId) : RoleIdSame r (upgrade_role_id r) := by
  cases r <;> simp [RoleIdSame, upgrade_role_id]

/-- The cluster-id translation preserves case and payload. -/
lemma clusterIdSame_upgrade (i : V80.ClusterId) :
    ClusterIdSame i (upgrade_cluster_id i) := by
  cases i <;> simp [ClusterIdSame, upgrade_cluster_id]

/-- The acl-item translation preserves grantee, grantor and bitflags. -/
lemma aclItemSame_upgrade (i : V80.MzAclItem) :
    AclItemSame i (upgrade_mz_acl_item i) :=
  ⟨roleIdSame_upgrade _, roleIdSame_upgrade _, rfl⟩

/-- The cluster-variant translation preserves every field. -/
lemma variantSame_upgrade (v : V80.ClusterVariant) :
    VariantSame v (upgrade_cluster_variant v) := by
  cases v with
  | Unmanaged => simp [VariantSame, upgrade_cluster_variant]
  | Managed m =>
      refine ⟨rfl, rfl, rfl, ⟨rfl, ?_⟩, ?_, ?_⟩
      · cases m.logging.interval <;> simp [IntervalSame, DurationSame]
      · rw [List.forall₂_map_right_iff, List.forall₂_same]
        intro o _
        exact ⟨rfl, rfl⟩
      · cases m.schedule <;> simp [ScheduleSame, upgrade_cluster_variant, DurationSame]

/-- The whole cluster translation preserves every shared field. -/
lemma clusterSame_upgrade (c : V80.Cluster) : ClusterSame c (upgrade_cluster c) := by
  refine ⟨clusterIdSame_upgrade _, rfl, roleIdSame_upgrade _, ?_, rfl,
    variantSame_upgrade _⟩
  show List.Forall₂ AclItemSame c.value.privileges
    (c.value.privileges.map upgrade_mz_acl_item)
  rw [List.forall₂_map_right_iff, List.forall₂_same]
  intro i _
  exact aclItemSame_upgrade i

/-- Every action in the output of `upgrade` is the update of some cluster
entry of the input, paired with its translated v81 cluster. -/
lemma exists_of_mem_upgrade {s : List V80.StateUpdateKind}
    {a : MigrationAction V80.StateUpdateKind V81.StateUpdateKind}
    (h : a ∈ upgrade s) :
    ∃ c, V80.StateUpdateKind.Cluster c ∈ s ∧
      a = MigrationAction.Update (V80.StateUpdateKind.Cluster c)
        (V81.StateUpdateKind.Cluster (upgrade_cluster c)) := by
  rcases List.mem_filterMap.mp h with ⟨e, he, hfe⟩
  cases e with
  | Cluster c =>
      refine ⟨c, he, ?_⟩
      simpa [upgrade_entry] using hfe.symm
  | Other t => simp [upgrade_entry] at hfe

/-- Every cluster entry of the input contributes its update action to the
output of `upgrade`. -/
lemma cluster_mem_upgrade {s : List V80.StateUpdateKind} {c : V80.Cluster}
    (h : V80.StateUpdateKind.Cluster c ∈ s) :
    MigrationAction.Update (V80.StateUpdateKind.Cluster c)
      (V81.StateUpdateKind.Cluster (upgrade_cluster c)) ∈ upgrade s :=
  List.mem_filterMap.mpr ⟨_, h, rfl⟩

/-- A sample v80 managed-cluster payload for the concrete witnesses. -/
def exManaged : V80.ManagedCluster :=
  { size := "s1"
    replication_factor := 2
    availability_zones := ["az1", "az2"]
    logging := { log_logging := true, interval := some { secs := 5, nanos := 6 } }
    optimizer_feature_overrides := [{ name := "f", value := "v" }]
    schedule := V80.ClusterSchedule.Refresh
      { rehydration_time_estimate := { secs := 7, nanos := 8 } } }

/-- A sample v80 cluster entry for the concrete witnesses. -/
def exCluster : V80.Cluster :=
  { key := { id := V80.ClusterId.User 3 }
    value :=
      { name := "c1"
        owner_id := V80.RoleId.User 5
        privileges :=
          [{ grantee := V80.RoleId.Public
             grantor := V80.RoleId.System 1
             acl_mode := { bitflags := 3 } }]
        config :=
          { workload_class := some "w"
            variant := V80.ClusterVariant.Managed exManaged } } }

/-- The sample v80 cluster entry wrapped in the state-update variant. -/
def exEntry : V80.StateUpdateKind := V80.StateUpdateKind.Cluster exCluster

/-- Two distinct members of a list that an option-valued function sends to
the same value force a duplicate in the filtered mapping. -/
lemma not_nodup_filterMap_of_two {α β : Type} (f : α → Option β) :
    ∀ {s : List α} {k : β} {e₁ e₂ : α}, e₁ ∈ s → e₂ ∈ s → e₁ ≠ e₂ →
      f e₁ = some k → f e₂ = some k → ¬ (s.filterMap f).Nodup := by
  intro s
  induction s with
  | nil => intro k e₁ e₂ h₁ _ _ _ _; cases h₁
  | cons h t ih =>
      intro k e₁ e₂ h₁ h₂ hne hf₁ hf₂ hnd
      rcases List.mem_cons.mp h₁ with rfl | h₁t
      · rcases List.mem_cons.mp h₂ with rfl | h₂t
        · exact hne rfl
        · rw [List.filterMap_cons, hf₁] at hnd
          exact (List.nodup_cons.mp hnd).1
            (List.mem_filterMap.mpr ⟨e₂, h₂t, hf₂⟩)
      · rcases List.mem_cons.mp h₂ with rfl | h₂t
        · rw [List.filterMap_cons, hf₂] at hnd
          exact (List.nodup_cons.mp hnd).1
            (List.mem_filterMap.mpr ⟨e₁, h₁t, hf₁⟩)
        · exact ih h₁t h₂t hne hf₁ hf₂
            (hnd.sublist ((List.sublist_cons_self h t).filterMap f))

/-- C1: for every input snapshot, every Update action emitted by `upgrade`
whose new entry is a cluster has the newly introduced `sealed` field of
its configuration equal to the documented default `false`. -/
theorem upgrade_sealed_default (s : List V80.StateUpdateKind)
    (old : V80.StateUpdateKind) (new : V81.StateUpdateKind)
    (h : MigrationAction.Update old new ∈ upgrade s)
    (c : V81.Cluster) (hn : new = V81.StateUpdateKind.Cluster c) :
    c.value.config.sealed = false := by
  rcases exists_of_mem_upgrade h with ⟨c₀, _, heq⟩
  injection heq with ho hn₀
  subst hn₀
  injection hn with hc
  subst hc
  rfl

/-- Concrete instance of `upgrade_sealed_default` on the sample snapshot. -/
theorem upgrade_sealed_default_witness :
    (MigrationAction.Update exEntry
        (V81.StateUpdateKind.Cluster (upgrade_cluster exCluster)) ∈
      upgrade [exEntry]) ∧
    ((V81.StateUpdateKind.Cluster (upgrade_cluster exCluster)) =
      V81.StateUpdateKind.Cluster (upgrade_cluster exCluster)) ∧
    (upgrade_cluster exCluster).value.config.sealed = false :=
  ⟨by decide, rfl,
    upgrade_sealed_default [exEntry] exEntry _ (by decide)
      (upgrade_cluster exCluster) rfl⟩

/-- C2: a snapshot holding exactly one cluster entry yields exactly one
action, an Update whose new cluster has `sealed = false` and whose name,
owner, privileges, workload class and variant are structurally identical
to the input entry's. -/
theorem upgrade_singleton_cluster (c : V80.Cluster) :
    upgrade [V80.StateUpdateKind.Cluster c] =
      [MigrationAction.Update (V80.StateUpdateKind.Cluster c)
        (V81.StateUpdateKind.Cluster (upgrade_cluster c))] ∧
    (upgrade_cluster c).value.config.sealed = false ∧
    (upgrade_cluster c).value.name = c.value.name ∧
    RoleIdSame c.value.owner_id (upgrade_cluster c).value.owner_id ∧
    List.Forall₂ AclItemSame c.value.privileges
      (upgrade_cluster c).value.privileges ∧
    (upgrade_cluster c).value.config.workload_class =
      c.value.config.workload_class ∧
    VariantSame c.value.config.variant
      (upgrade_cluster c).value.config.variant := by
  obtain ⟨_, _, _, hp, _, hv⟩ := clusterSame_upgrade c
  exact ⟨rfl, rfl, rfl, roleIdSame_upgrade _, hp, rfl, hv⟩

/-- C3: every cluster entry of the input snapshot contributes an Update
action to the output of `upgrade`, and every field present in both the
v80 and v81 shapes — key id, name, owner, privileges with their bitflags,
workload class and the full variant — is structurally equal before and
after migration. -/
theorem upgrade_preserves_shared_fields (s : List V80.StateUpdateKind)
    (c : V80.Cluster) (h : V80.StateUpdateKind.Cluster c ∈ s) :
    MigrationAction.Update (V80.StateUpdateKind.Cluster c)
      (V81.StateUpdateKind.Cluster (upgrade_cluster c)) ∈ upgrade s ∧
    ClusterSame c (upgrade_cluster c) :=
  ⟨cluster_mem_upgrade h, clusterSame_upgrade c⟩

/-- Concrete instance of `upgrade_preserves_shared_fields` on the sample
snapshot. -/
theorem upgrade_preserves_shared_fields_witness :
    (V80.StateUpdateKind.Cluster exCluster ∈ [exEntry]) ∧
    (MigrationAction.Update (V80.StateUpdateKind.Cluster exCluster)
        (V81.StateUpdateKind.Cluster (upgrade_cluster exCluster)) ∈
      upgrade [exEntry] ∧
    ClusterSame exCluster (upgrade_cluster exCluster)) :=
  ⟨by decide, upgrade_preserves_shared_fields [exEntry] exCluster (by decide)⟩

/-- C4: an entry of the input snapshot that is not a cluster produces no
migration action: the per-entry closure returns `None` for it, and no
action in the output of `upgrade` refers to it as its old entry. -/
theorem upgrade_skips_non_cluster (s : List V80.StateUpdateKind)
    (e : V80.StateUpdateKind) (he : e ∈ s)
    (hnc : ∀ c, e ≠ V80.StateUpdateKind.Cluster c) :
    upgrade_entry e = none ∧
      ∀ a ∈ upgrade s, MigrationAction.oldOf a ≠ some e := by
  constructor
  · cases e with
    | Cluster c => exact absurd rfl (hnc c)
    | Other t => rfl
  · intro a ha
    rcases exists_of_mem_upgrade ha with ⟨c, _, rfl⟩
    intro hcontra
    exact hnc c (Option.some.inj hcontra).symm

/-- Concrete instance of `upgrade_skips_non_cluster` on a snapshot holding
one non-cluster entry. -/
theorem upgrade_skips_non_cluster_witness :
    (V80.StateUpdateKind.Other 0 ∈ [V80.StateUpdateKind.Other 0] ∧
      ∀ c, V80.StateUpdateKind.Other 0 ≠ V80.StateUpdateKind.Cluster c) ∧
    (upgrade_entry (V80.StateUpdateKind.Other 0) = none ∧
      ∀ a ∈ upgrade [V80.StateUpdateKind.Other 0],
        MigrationAction.oldOf a ≠ some (V80.StateUpdateKind.Other 0)) :=
  ⟨⟨by decide, fun c h => V80.StateUpdateKind.noConfusion h⟩,
    upgrade_skips_non_cluster [V80.StateUpdateKind.Other 0]
      (V80.StateUpdateKind.Other 0) (by decide)
      (fun c h => V80.StateUpdateKind.noConfusion h)⟩

/-- C5: `upgrade` is total — every input snapshot yields a defined list of
actions with no error branch, its length being exactly the number of
cluster entries of the input. -/
theorem upgrade_total (s : List V80.StateUpdateKind) :
    (upgrade s).length = s.countP isClusterEntry := by
  induction s with
  | nil => rfl
  | cons e t ih =>
      cases e with
      | Cluster c =>
          simp [upgrade, List.filterMap_cons, upgrade_entry,
            List.countP_cons, isClusterEntry] at ih ⊢
          exact ih
      | Other tag =>
          simp [upgrade, List.filterMap_cons, upgrade_entry,
            List.countP_cons, isClusterEntry] at ih ⊢
          exact ih

/-- C6: the old entry of every Update action emitted by `upgrade` is
present in the input snapshot, and when the snapshot has no duplicate
cluster keys it resolves to a unique entry with that key. -/
theorem upgrade_old_resolves (s : List V80.StateUpdateKind)
    (old : V80.StateUpdateKind) (new : V81.StateUpdateKind)
    (h : MigrationAction.Update old new ∈ upgrade s) :
    old ∈ s ∧
      ((s.filterMap entryKey).Nodup →
        ∃! e, e ∈ s ∧ entryKey e = entryKey old) := by
  rcases exists_of_mem_upgrade h with ⟨c, hc, heq⟩
  injection heq with ho hn
  subst ho
  refine ⟨hc, fun hnd => ⟨V80.StateUpdateKind.Cluster c, ⟨hc, rfl⟩, ?_⟩⟩
  rintro e ⟨he, hk⟩
  by_contra hne
  exact not_nodup_filterMap_of_two entryKey he hc hne hk rfl hnd

/-- Concrete instance of `upgrade_old_resolves` on the sample snapshot. -/
theorem upgrade_old_resolves_witness :
    (MigrationAction.Update exEntry
        (V81.StateUpdateKind.Cluster (upgrade_cluster exCluster)) ∈
      upgrade [exEntry]) ∧
    (exEntry ∈ [exEntry] ∧
      (([exEntry].filterMap entryKey).Nodup →
        ∃! e, e ∈ [exEntry] ∧ entryKey e = entryKey exEntry)) :=
  ⟨by decide,
    upgrade_old_resolves [exEntry] exEntry
      (V81.StateUpdateKind.Cluster (upgrade_cluster exCluster)) (by decide)⟩

/-- C7: every role id nested in a cluster value goes through the one
mapping `upgrade_role_id`: the new owner is the image of the old owner,
the privilege list is the itemwise image under `upgrade_mz_acl_item`, and
that translation sends each grantee and grantor through
`upgrade_role_id`. -/
theorem upgrade_role_ids_consistent (s : List V80.StateUpdateKind)
    (old : V80.StateUpdateKind) (new : V81.StateUpdateKind)
    (c : V80.Cluster) (d : V81.Cluster)
    (h : MigrationAction.Update old new ∈ upgrade s)
    (ho : old = V80.StateUpdateKind.Cluster c)
    (hn : new = V81.StateUpdateKind.Cluster d) :
    d.value.owner_id = upgrade_role_id c.value.owner_id ∧
      d.value.privileges = c.value.privileges.map upgrade_mz_acl_item ∧
      ∀ item : V80.MzAclItem,
        (upgrade_mz_acl_item item).grantee = upgrade_role_id item.grantee ∧
          (upgrade_mz_acl_item item).grantor = upgrade_role_id item.grantor := by
  rcases exists_of_mem_upgrade h with ⟨c₀, _, heq⟩
  injection heq with ho₀ hn₀
  subst ho₀ hn₀
  injection ho.symm with hc
  subst hc
  injection hn with hd
  subst hd
  exact ⟨rfl, rfl, fun item => ⟨rfl, rfl⟩⟩

/-- Concrete instance of `upgrade_role_ids_consistent` on the sample
snapshot. -/
theorem upgrade_role_ids_consistent_witness :
    (MigrationAction.Update exEntry
        (V81.StateUpdateKind.Cluster (upgrade_cluster exCluster)) ∈
      upgrade [exEntry]) ∧
    ((upgrade_cluster exCluster).value.owner_id =
        upgrade_role_id exCluster.value.owner_id ∧
      (upgrade_cluster exCluster).value.privileges =
        exCluster.value.privileges.map upgrade_mz_acl_item ∧
      ∀ item : V80.MzAclItem,
        (upgrade_mz_acl_item item).grantee = upgrade_role_id item.grantee ∧
          (upgrade_mz_acl_item item).grantor = upgrade_role_id item.grantor) :=
  ⟨by decide,
    upgrade_role_ids_consistent [exEntry] exEntry _ exCluster
      (upgrade_cluster exCluster) (by decide) rfl rfl⟩

/-- C8: `upgrade` is deterministic — a pure function of the input
snapshot, producing structurally equal outputs on structurally equal
inputs. -/
theorem upgrade_deterministic (s₁ s₂ : List V80.StateUpdateKind)
    (h : s₁ = s₂) : upgrade s₁ = upgrade s₂ := by
  rw [h]

/-- Concrete instance of `upgrade_deterministic` on the sample snapshot. -/
theorem upgrade_deterministic_witness :
    ([exEntry] = [exEntry]) ∧ upgrade [exEntry] = upgrade [exEntry] :=
  ⟨rfl, upgrade_deterministic [exEntry] [exEntry] rfl⟩

/-- C9: `upgrade` preserves the input order — for two cluster entries
appearing in that order in the snapshot, the output is the concatenation
of the surrounding segments' outputs with the first entry's action
strictly before the second entry's action. -/
theorem upgrade_preserves_order (s₁ s₂ s₃ : List V80.StateUpdateKind)
    (c₁ c₂ : V80.Cluster) :
    upgrade (s₁ ++ V80.StateUpdateKind.Cluster c₁ ::
        (s₂ ++ V80.StateUpdateKind.Cluster c₂ :: s₃)) =
      upgrade s₁ ++
        MigrationAction.Update (V80.StateUpdateKind.Cluster c₁)
          (V81.StateUpdateKind.Cluster (upgrade_cluster c₁)) ::
        (upgrade s₂ ++
          MigrationAction.Update (V80.StateUpdateKind.Cluster c₂)
            (V81.StateUpdateKind.Cluster (upgrade_cluster c₂)) ::
          upgrade s₃) := by
  simp [upgrade, List.filterMap_append, List.filterMap_cons, upgrade_entry]

/-- C10: `upgrade` emits only Update actions — never Insert and never
Delete — and the old entry of each Update is taken from the input
snapshot, so the step neither adds nor removes entries. -/
theorem upgrade_only_updates (s : List V80.StateUpdateKind)
    (a : MigrationAction V80.StateUpdateKind V81.StateUpdateKind)
    (h : a ∈ upgrade s) :
    (∃ old new, a = MigrationAction.Update old new ∧ old ∈ s) ∧
      (∀ n, a ≠ MigrationAction.Insert n) ∧
      (∀ o, a ≠ MigrationAction.Delete o) := by
  rcases exists_of_mem_upgrade h with ⟨c, hc, rfl⟩
  exact ⟨⟨_, _, rfl, hc⟩, fun n hn => MigrationAction.noConfusion hn,
    fun o hd => MigrationAction.noConfusion hd⟩

/-- Concrete instance of `upgrade_only_updates` on the sample snapshot. -/
theorem upgrade_only_updates_witness :
    (MigrationAction.Update exEntry
        (V81.StateUpdateKind.Cluster (upgrade_cluster exCluster)) ∈
      upgrade [exEntry]) ∧
    ((∃ old new,
        MigrationAction.Update exEntry
            (V81.StateUpdateKind.Cluster (upgrade_cluster exCluster)) =
          MigrationAction.Update old new ∧ old ∈ [exEntry]) ∧
      (∀ n,
        MigrationAction.Update exEntry
            (V81.StateUpdateKind.Cluster (upgrade_cluster exCluster)) ≠
          MigrationAction.Insert n) ∧
      (∀ o,
        MigrationAction.Update exEntry
            (V81.StateUpdateKind.Cluster (upgrade_cluster exCluster)) ≠
          MigrationAction.Delete o)) :=
  ⟨by decide, upgrade_only_updates [exEntry] _ (by decide)⟩
